import Mathlib

/-
Verification of the Athena CAP Bridge (src/app.py) and the offline
integrity auditor (src/scripts/local_integrity_check.py).

Byte strings are modelled as `List Nat` with entries below 256; 32-bit
machine arithmetic is `Nat` arithmetic reduced modulo 2 ^ 32.  SHA-256 and
HMAC-SHA256 are implemented concretely (checked against FIPS 180-4 and
RFC 4231 vectors), so `verify_signature` below is the actual keyed-digest
check performed by `hmac.new(secret, body, sha256).hexdigest()`.
-/

/-- 2 ^ 32, the modulus of all 32-bit words in SHA-256. -/
def M32 : Nat := 4294967296

/-- Rotate a 32-bit word right by n positions. -/
def rotr (n x : Nat) : Nat :=
  ((x >>> n) ||| ((x <<< (32 - n)) % M32))

/-- The 64 round constants of SHA-256 (FIPS 180-4 section 4.2.2), written
in decimal. -/
def shaK : List Nat :=
  [1116352408, 1899447441, 3049323471, 3921009573, 961987163, 1508970993,
   2453635748, 2870763221, 3624381080, 310598401, 607225278, 1426881987,
   1925078388, 2162078206, 2614888103, 3248222580, 3835390401, 4022224774,
   264347078, 604807628, 770255983, 1249150122, 1555081692, 1996064986,
   2554220882, 2821834349, 2952996808, 3210313671, 3336571891, 3584528711,
   113926993, 338241895, 666307205, 773529912, 1294757372, 1396182291,
   1695183700, 1986661051, 2177026350, 2456956037, 2730485921, 2820302411,
   3259730800, 3345764771, 3516065817, 3600352804, 4094571909, 275423344,
   430227734, 506948616, 659060556, 883997877, 958139571, 1322822218,
   1537002063, 1747873779, 1955562222, 2024104815, 2227730452, 2361852424,
   2428436474, 2756734187, 3204031479, 3329325298]

/-- The initial hash state of SHA-256 (FIPS 180-4 section 5.3.3), decimal. -/
def shaH0 : List Nat :=
  [1779033703, 3144134277, 1013904242, 2773480762, 1359893119, 2600822924,
   528734635, 1541459225]

/-- Big-endian 8-byte encoding of a natural number (the message bit length). -/
def bigEndian8 (n : Nat) : List Nat :=
  (List.range 8).map (fun i => (n >>> (8 * (7 - i))) % 256)

/-- SHA-256 message padding: a 0x80 byte, zeros to 56 mod 64, then the bit length. -/
def padMsg (m : List Nat) : List Nat :=
  let z := (64 - ((m.length + 9) % 64)) % 64
  m ++ [0x80] ++ List.replicate z 0 ++ bigEndian8 (8 * m.length)

/-- Big-endian word from a list of bytes. -/
def bytesToWord (b : List Nat) : Nat :=
  b.foldl (fun acc x => acc * 256 + x) 0

/-- The sixteen 32-bit words of the i-th 64-byte block of a padded message. -/
def blockWords (m : List Nat) (blockIdx : Nat) : List Nat :=
  (List.range 16).map (fun j => bytesToWord (((m.drop (64 * blockIdx + 4 * j)).take 4)))

def smallSigma0 (x : Nat) : Nat := (rotr 7 x) ^^^ (rotr 18 x) ^^^ (x >>> 3)

def smallSigma1 (x : Nat) : Nat := (rotr 17 x) ^^^ (rotr 19 x) ^^^ (x >>> 10)

def bigSigma0 (x : Nat) : Nat := (rotr 2 x) ^^^ (rotr 13 x) ^^^ (rotr 22 x)

def bigSigma1 (x : Nat) : Nat := (rotr 6 x) ^^^ (rotr 11 x) ^^^ (rotr 25 x)

/-- The next word of the SHA-256 message schedule, extending the list so far. -/
def extendWord (acc : List Nat) : Nat :=
  let i := acc.length
  (smallSigma1 (acc.getD (i - 2) 0) + acc.getD (i - 7) 0 +
   smallSigma0 (acc.getD (i - 15) 0) + acc.getD (i - 16) 0) % M32

/-- The 64-entry message schedule grown from the 16 block words. -/
def schedule (ws : List Nat) : List Nat :=
  (List.range 48).foldl (fun acc _ => acc ++ [extendWord acc]) ws

/-- One SHA-256 round on the eight-word working state. -/
def shaStep (st : List Nat) (kw : Nat × Nat) : List Nat :=
  match st with
  | [a, b, c, d, e, f, g, h] =>
    let t1 := (h + bigSigma1 e + ((e &&& f) ^^^ ((M32 - 1 - e) &&& g)) + kw.1 + kw.2) % M32
    let t2 := (bigSigma0 a + ((a &&& b) ^^^ (a &&& c) ^^^ (b &&& c))) % M32
    [(t1 + t2) % M32, a, b, c, (d + t1) % M32, e, f, g]
  | _ => st

/-- SHA-256 compression of one block into the running hash. -/
def compressBlock (H : List Nat) (ws : List Nat) : List Nat :=
  let st := ((schedule ws).zip shaK).foldl shaStep H
  (H.zip st).map (fun p => (p.1 + p.2) % M32)

/-- The eight 32-bit words of the SHA-256 digest of a byte string. -/
def sha256Words (m : List Nat) : List Nat :=
  let p := padMsg m
  (List.range (p.length / 64)).foldl (fun H i => compressBlock H (blockWords p i)) shaH0

/-- Lowercase hex digit, as produced by Python's hexdigest(). -/
def hexChar (n : Nat) : Char :=
  if n < 10 then Char.ofNat (48 + n) else Char.ofNat (87 + n)

/-- The lowercase 64-character hex digest of a byte string (hashlib hexdigest). -/
def sha256Hex (m : List Nat) : String :=
  String.mk ((sha256Words m).flatMap (fun w => (List.range 8).map (fun i => hexChar ((w >>> (4 * (7 - i))) % 16))))

/-- The 32-byte raw SHA-256 digest (hashlib digest). -/
def sha256Bytes (m : List Nat) : List Nat :=
  (sha256Words m).flatMap (fun w => (List.range 4).map (fun i => (w >>> (8 * (3 - i))) % 256))

/-- HMAC-SHA256 hex digest (RFC 2104), as computed by
`hmac.new(key, msg, hashlib.sha256).hexdigest()` in app.py line 78. -/
def hmacSha256Hex (key msg : List Nat) : String :=
  let k0 := if key.length > 64 then sha256Bytes key else key
  let k := k0 ++ List.replicate (64 - k0.length) 0
  let ipad := k.map (fun b => b ^^^ 0x36)
  let opad := k.map (fun b => b ^^^ 0x5c)
  sha256Hex (opad ++ sha256Bytes (ipad ++ msg))

/-- UTF-8 bytes of an ASCII string (used only for concrete ASCII inputs,
where the code point equals the byte). -/
def strBytes (s : String) : List Nat := s.data.map (fun c => c.toNat)

/-- app.py lines 74-79, verify_signature(secret, body, received_sig).
`secret` is the UTF-8 encoding of the shared-secret string (empty list iff
the string is empty, matching Python's `not secret`), `received_sig` is the
X-Athena-Signature header (`none` when absent; Python's `not received_sig`
is also true for the empty string).  `hmac.compare_digest` is a
constant-time string equality; timing is not modelled, its value is
equality of the two hex strings. -/
def verify_signature (secret body : List Nat) (received_sig : Option String) : Bool :=
  if secret = [] ∨ received_sig.getD "" = "" then false
  else if hmacSha256Hex secret body = received_sig.getD "" then true else false

/-
The intake path of app.py (receive_cap, lines 111-145) and the relay helper
(relay_cap_payload, lines 84-106).  json.loads and the jsonschema validator
are external libraries; their outcomes on the received body enter the model
as explicit parameters (`parsed`, `schemaError`), and the downstream HTTP
interaction of requests.post enters as a `PostResult`.
-/

/-- A JSON value as far as the pydantic field check can distinguish it:
a JSON string, or any non-string JSON value. -/
inductive JVal
| str (s : String)
| nonstr
 deriving DecidableEq

/-- The parsed record as far as CAPPayload's fields are concerned:
each field is present (`some`) or absent (`none`).  The three `Any`
fields only have their presence checked. -/
structure RawRecord where
  cap_id : Option JVal
  timestamp : Option JVal
  domain : Option JVal
  context_mode : Option JVal
  advisor_of_record : Option JVal
  outputs : Option Unit
  cap_extensions : Option Unit
  integrity : Option Unit
 deriving DecidableEq

/-- A pydantic `x: str` field accepts exactly a present string value
(the empty string included). -/
def isStrField : Option JVal → Bool
  | some (.str _) => true
  | _ => false

/-- app.py lines 30-38: whether `CAPPayload(**data)` succeeds.  All eight
fields are required; the five scalar fields must be strings, with no
minimum-length constraint, so an empty string passes. -/
def capPayloadOk (r : RawRecord) : Bool :=
  isStrField r.cap_id && isStrField r.timestamp && isStrField r.domain &&
  isStrField r.context_mode && isStrField r.advisor_of_record &&
  r.outputs.isSome && r.cap_extensions.isSome && r.integrity.isSome

/-- The outcome of `response.json()` on the downstream reply: a decoded
body, or the JSONDecodeError message raised for a non-JSON body. -/
inductive JsonOutcome
| val (body : String)
| decodeErr (msg : String)
 deriving DecidableEq

/-- The downstream HTTP response observed by relay_cap_payload. -/
structure HttpResp where
  status : Nat
  text : String
  jsonResult : JsonOutcome
 deriving DecidableEq

/-- The outcome of `requests.post`: a response, or a transport-level
exception carrying its message. -/
inductive PostResult
| resp (r : HttpResp)
| exn (msg : String)
 deriving DecidableEq

/-- The dict returned by relay_cap_payload, app.py lines 90, 100, 103, 106. -/
inductive RelayResult
| skipped (reason : String)
| success (bridge_status : String)
| failed (code : Nat) (body : String)
| error (msg : String)
 deriving DecidableEq

/-- Whether a relay outcome is the success variant. -/
def isSuccess : RelayResult → Bool
  | .success _ => true
  | _ => false

/-- app.py lines 84-106, relay_cap_payload.  With no BRIDGE_URL the relay is
skipped.  Otherwise the try block posts once: on status 200 it returns
success carrying `response.json()` (whose decode error, like any exception
in the try block, is caught and returned as the error variant); on any
other status it returns failed with the status code and body text, with no
retry; a transport exception returns the error variant. -/
def relay_cap_payload (bridge_url : String) (post : PostResult) : RelayResult :=
  if bridge_url = "" then .skipped "BRIDGE_URL not set"
  else
    match post with
    | .resp r =>
      if r.status = 200 then
        match r.jsonResult with
        | .val b => .success b
        | .decodeErr m => .error m
      else .failed r.status r.text
    | .exn m => .error m

/-- The HTTP answer of POST /cap: the 200 body with its embedded
relay_result, or an HTTPException status code. -/
inductive IntakeResponse
| ok (relay_result : RelayResult)
| err (code : Nat)
 deriving DecidableEq

/-- The observable outcome of one POST /cap request: the response and
whether relay_cap_payload was invoked. -/
structure IntakeResult where
  response : IntakeResponse
  relayInvoked : Bool
 deriving DecidableEq

/-- app.py lines 111-145, receive_cap.  Order of the source: signature
check (else 401); json.loads (`parsed` is `none` when it raises, giving the
generic 400 handler); `CAPPayload(**data)` (pydantic's error is not a
jsonschema ValidationError, so it also reaches the generic 400 handler);
`validate(instance, schema)` whose ValidationError message (`schemaError`)
gives 422; then the relay, whose result is embedded in the 200 body. -/
def receive_cap (secret body_bytes : List Nat) (x_athena_signature : Option String)
    (parsed : Option RawRecord) (schemaError : Option String)
    (bridge_url : String) (post : PostResult) : IntakeResult :=
  if verify_signature secret body_bytes x_athena_signature = false then
    ⟨.err 401, false⟩
  else
    match parsed with
    | none => ⟨.err 400, false⟩
    | some data =>
      if capPayloadOk data = false then ⟨.err 400, false⟩
      else
        match schemaError with
        | some _ => ⟨.err 422, false⟩
        | none => ⟨.ok (relay_cap_payload bridge_url post), true⟩

/-
The offline auditor, src/scripts/local_integrity_check.py.  File loads,
the canonical fetch and the jsonschema validation are I/O, entering the
model as fields of `AuditEnv`; hashing is the concrete sha256Hex above
(sha256_file hashes the file bytes; the "SHA256:" prefix is split off on
both sides before the comparison on line 69, so the model compares the
bare hex parts).
-/

/-- Outcome of load_json on a file: absent, unreadable JSON (message of the
decode error), or a parsed value. -/
inductive FileLoad (α : Type)
| missing
| notJson (msg : String)
| ok (v : α)
 deriving DecidableEq

/-- One entry of the manifest's "modules" list. -/
structure ModEntry where
  name : String
  sha256 : String
 deriving DecidableEq

/-- The parsed manifest: optional "version" key (read with .get and default
"unknown") and optional "modules" key (a missing key raises KeyError). -/
structure Manifest where
  version : Option String
  modules : Option (List ModEntry)
 deriving DecidableEq

/-- The five verdict shapes of the script: the PASS verdict, the
(FileNotFoundError, KeyError) branch, the ValidationError branch, and the
generic exception branch with its message. -/
inductive Verdict
| pass
| missingFileOrKey
| capInvalid (msg : String)
| unhandled (msg : String)
 deriving DecidableEq

/-- A UTC wall-clock instant as strftime sees it, with the sub-second part
that "%Y%m%d_%H%M%S" discards. -/
structure UtcTime where
  year : Nat
  month : Nat
  day : Nat
  hour : Nat
  minute : Nat
  second : Nat
  micro : Nat
 deriving DecidableEq

/-- The environment of one auditor run: what the filesystem, the network
and the validator would answer.  `jsonOk` tells whether given schema-file
bytes parse as JSON; `capError` is the ValidationError message of
validate(cap, schema), `none` when validation passes. -/
structure AuditEnv where
  manifestLoad : FileLoad Manifest
  schemaBytes : Option (List Nat)
  fetched : Option (List Nat)
  jsonOk : List Nat → Bool
  capLoad : FileLoad Unit
  capError : Option String
  start : UtcTime
  runtime : String
  writeMtime : Nat

/-- What the try block of main() left behind: the `manifest` and
`local_hash` locals (if assigned), the number of canonical fetches
attempted, the schema file content after the run, and the verdict. -/
structure TryOut where
  manifestVar : Option Manifest
  localHash : Option String
  fetchCount : Nat
  schemaFile : Option (List Nat)
  verdict : Verdict
 deriving DecidableEq

/-- The pinned artifact name looked up in the manifest (line 65). -/
def schemaArtifactName : String := "ATHENA_CAP_SCHEMA_v3_5.json"

/-- Line 65: `next(m for m in manifest["modules"] if m["name"] == ...)`;
`none` models the StopIteration of an exhausted generator. -/
def findModule (ms : List ModEntry) : Option ModEntry :=
  ms.find? (fun m => m.name == schemaArtifactName)

/-- Split a character list at every colon, the semantics of Python's
str.split(":") (structural recursion, unlike String.splitOn, so that it
evaluates inside the kernel). -/
def splitCols : List Char → List (List Char)
  | [] => [[]]
  | c :: cs =>
    match splitCols cs with
    | [] => [[]]
    | h :: t => if c = ':' then [] :: h :: t else (c :: h) :: t

/-- Lines 66-67: `s.split(":")[1]`; `none` models the IndexError when the
digest string has no colon. -/
def hexPart (s : String) : Option String :=
  ((splitCols s.data).map (fun l => String.mk l))[1]?

/-- ASCII lowercasing of a hex string, the effect of Python's str.lower()
on hex digests (structural, kernel-evaluable). -/
def lowerHex (s : String) : String :=
  String.mk (s.data.map (fun c => if 64 < c.toNat ∧ c.toNat < 91 then Char.ofNat (c.toNat + 32) else c))

/-- Lines 78-82 of the try block, shared by the matching and the repaired
path: load the schema JSON, load the CAP record, validate it. -/
def runTail (env : AuditEnv) (manifest : Manifest) (lh : String) (fc : Nat)
    (content : List Nat) : TryOut :=
  if env.jsonOk content = false then
    ⟨some manifest, some lh, fc, some content, .unhandled "schema json decode error"⟩
  else
    match env.capLoad with
    | .missing => ⟨some manifest, some lh, fc, some content, .missingFileOrKey⟩
    | .notJson m => ⟨some manifest, some lh, fc, some content, .unhandled m⟩
    | .ok _ =>
      match env.capError with
      | some m => ⟨some manifest, some lh, fc, some content, .capInvalid m⟩
      | none => ⟨some manifest, some lh, fc, some content, .pass⟩

/-- Lines 61-93 of main(): the try block with its three except branches.
Mirrors the source order: manifest load, modules lookup, digest split,
local hash, the line-69 comparison `local_hash != canon_hash` (exact
string inequality), on mismatch one fetch + atomic rewrite + one re-hash
(raising ValueError "Post-fetch hash still mismatch." if it still differs),
then schema load, CAP load and validation. -/
def runTry (env : AuditEnv) : TryOut :=
  match env.manifestLoad with
  | .missing => ⟨none, none, 0, env.schemaBytes, .missingFileOrKey⟩
  | .notJson m => ⟨none, none, 0, env.schemaBytes, .unhandled m⟩
  | .ok manifest =>
    match manifest.modules with
    | none => ⟨some manifest, none, 0, env.schemaBytes, .missingFileOrKey⟩
    | some mods =>
      match findModule mods with
      | none => ⟨some manifest, none, 0, env.schemaBytes, .unhandled "StopIteration"⟩
      | some entry =>
        match hexPart entry.sha256 with
        | none => ⟨some manifest, none, 0, env.schemaBytes, .unhandled "list index out of range"⟩
        | some canonHash =>
          match env.schemaBytes with
          | none => ⟨some manifest, none, 0, none, .missingFileOrKey⟩
          | some b =>
            if sha256Hex b = canonHash then
              runTail env manifest (sha256Hex b) 0 b
            else
              match env.fetched with
              | none => ⟨some manifest, some (sha256Hex b), 1, some b, .unhandled "canonical fetch failed"⟩
              | some content =>
                if sha256Hex content = canonHash then
                  runTail env manifest (sha256Hex content) 1 content
                else
                  ⟨some manifest, some (sha256Hex content), 1, some content, .unhandled "Post-fetch hash still mismatch."⟩

/-- status is "PASS" exactly when the try block reached its last line. -/
def statusOf (t : TryOut) : String := if t.verdict = .pass then "PASS" else "FAIL"

/-- The record dict written in the finally block (lines 95-101). -/
structure AuditRecord where
  runtime : String
  manifest_version : String
  schema_hash : String
  verdict : Verdict
  status : String
 deriving DecidableEq

/-- Lines 95-101: the audit record, with "unknown" when the `manifest`
local was never assigned (or has no "version" key) and "N/A" when
`local_hash` was never assigned. -/
def mkRecord (env : AuditEnv) (t : TryOut) : AuditRecord :=
  { runtime := env.runtime ++ "Z",
    manifest_version :=
      match t.manifestVar with
      | some m => m.version.getD "unknown"
      | none => "unknown",
    schema_hash := t.localHash.getD "N/A",
    verdict := t.verdict,
    status := statusOf t }

/-- One file of archive/CAP_LOGS as prune_logs sees it. -/
structure LogFile where
  path : String
  mtime : Nat
  record : AuditRecord
 deriving DecidableEq

/-- Line 18: LOG_RETAIN = 10. -/
def LOG_RETAIN : Nat := 10

/-- Insert into a mtime-descending list, after all entries of mtime at
least as large (the placement Python's stable sort gives an
earlier-iterated element over later ties). -/
def insertDesc (f : LogFile) : List LogFile → List LogFile
  | [] => [f]
  | g :: gs => if g.mtime ≤ f.mtime then f :: g :: gs else g :: insertDesc f gs

/-- Line 41: `sorted(logs, key=os.path.getmtime, reverse=True)` — a stable
sort, most recent modification time first. -/
def sortByMtimeDesc : List LogFile → List LogFile
  | [] => []
  | f :: fs => insertDesc f (sortByMtimeDesc fs)

/-- Lines 40-42: the files prune_logs keeps (everything past the first
LOG_RETAIN of the descending order is unlinked). -/
def prune_logs (logs : List LogFile) : List LogFile :=
  (sortByMtimeDesc logs).take LOG_RETAIN

/-- The files prune_logs unlinks. -/
def prunedLogs (logs : List LogFile) : List LogFile :=
  (sortByMtimeDesc logs).drop LOG_RETAIN

/-- Zero-padded two-digit strftime field. -/
def pad2 (n : Nat) : String := (if n < 10 then "0" else "") ++ toString n

/-- Zero-padded four-digit strftime field. -/
def pad4 (n : Nat) : String :=
  (if n < 10 then "000" else if n < 100 then "00" else if n < 1000 then "0" else "") ++ toString n

/-- Line 57: `utcnow().strftime("%Y%m%d_%H%M%S")` — whole seconds only,
the sub-second part of the instant is discarded. -/
def tstampOf (t : UtcTime) : String :=
  pad4 t.year ++ pad2 t.month ++ pad2 t.day ++ "_" ++ pad2 t.hour ++ pad2 t.minute ++ pad2 t.second

/-- Line 58: the audit log path inside ARCHIVE_DIR. -/
def logName (t : UtcTime) : String := "integrity_" ++ tstampOf t ++ ".log"

/-- Lines 35-38, safe_atomic_write via os.replace: writing a path replaces
any existing file at that path (and sets its modification time). -/
def writeLog (logs : List LogFile) (f : LogFile) : List LogFile :=
  (logs.filter (fun g => g.path != f.path)) ++ [f]

/-- The audit record of a whole run. -/
def auditRecordOf (env : AuditEnv) : AuditRecord := mkRecord env (runTry env)

/-- The log file the finally block writes: named by the start timestamp,
modification time the time of the write. -/
def logFileOf (env : AuditEnv) : LogFile :=
  ⟨logName env.start, env.writeMtime, auditRecordOf env⟩

/-- Lines 94-104: the archive content after the finally block — the record
is written (atomically replacing its path), then retention is pruned. -/
def finalLogsOf (env : AuditEnv) (prev : List LogFile) : List LogFile :=
  prune_logs (writeLog prev (logFileOf env))

/-- Line 105: `sys.exit(0 if status == "PASS" else 1)`. -/
def exitZero (env : AuditEnv) : Bool := (auditRecordOf env).status == "PASS"

/-
Concrete inputs used by the counterexamples and witnesses below.
-/

/-- A shared secret for concrete requests. -/
def c3Secret : List Nat := strBytes "athena-shared-secret"

/-- A JSON request body whose cap_id is present but empty (all other
required fields present); `c3Record` is its parse. -/
def c3BodyText : String :=
  "\x7b\"cap_id\":\"\",\"timestamp\":\"2024-01-01T00:00:00Z\",\"domain\":\"ops\",\"context_mode\":\"auto\",\"advisor_of_record\":\"a1\",\"outputs\":0,\"cap_extensions\":0,\"integrity\":0\x7d"

def c3Body : List Nat := strBytes c3BodyText

/-- json.loads of c3BodyText, as CAPPayload sees it. -/
def c3Record : RawRecord :=
  ⟨some (.str ""), some (.str "2024-01-01T00:00:00Z"), some (.str "ops"),
   some (.str "auto"), some (.str "a1"), some (), some (), some ()⟩

/-- A JSON request body with the cap_id member absent;
`c3wRecord` is its parse. -/
def c3wBodyText : String :=
  "\x7b\"timestamp\":\"2024-01-01T00:00:00Z\",\"domain\":\"ops\",\"context_mode\":\"auto\",\"advisor_of_record\":\"a1\",\"outputs\":0,\"cap_extensions\":0,\"integrity\":0\x7d"

def c3wBody : List Nat := strBytes c3wBodyText

/-- json.loads of c3wBodyText: no cap_id key. -/
def c3wRecord : RawRecord :=
  ⟨none, some (.str "2024-01-01T00:00:00Z"), some (.str "ops"),
   some (.str "auto"), some (.str "a1"), some (), some (), some ()⟩

/-- A fully populated JSON request body; `c4Record` is its parse. -/
def c4BodyText : String :=
  "\x7b\"cap_id\":\"x1\",\"timestamp\":\"2024-01-01T00:00:00Z\",\"domain\":\"ops\",\"context_mode\":\"auto\",\"advisor_of_record\":\"a1\",\"outputs\":0,\"cap_extensions\":0,\"integrity\":0\x7d"

def c4Body : List Nat := strBytes c4BodyText

/-- json.loads of c4BodyText: every field present and well-typed. -/
def c4Record : RawRecord :=
  ⟨some (.str "x1"), some (.str "2024-01-01T00:00:00Z"), some (.str "ops"),
   some (.str "auto"), some (.str "a1"), some (), some (), some ()⟩

/-- The SHA-256 digest of the empty byte string, uppercase hex. -/
def e3b0Upper : String := "E3B0C44298FC1C149AFBF4C8996FB92427AE41E4649B934CA495991B7852B855"

/-- The SHA-256 digest of the empty byte string, lowercase hex. -/
def e3b0Lower : String := "e3b0c44298fc1c149afbf4c8996fb92427ae41e4649b934ca495991b7852b855"

/-- A manifest whose expected digest for the schema artifact is written in
uppercase hex. -/
def c6Manifest : Manifest :=
  ⟨some "3.5", some [⟨schemaArtifactName, "SHA256:" ++ e3b0Upper⟩]⟩

/-- A run whose local schema file (empty content) hashes to the same
digest as the manifest entry up to hex letter case, and whose canonical
source serves that same content. -/
def c6Env : AuditEnv :=
  ⟨.ok c6Manifest, some [], some [], fun _ => true, .ok (), none,
   ⟨2025, 1, 1, 0, 0, 0, 0⟩, "2025-01-01T00:00:00", 100⟩

/-- The same manifest with the digest in lowercase hex. -/
def c6wManifest : Manifest :=
  ⟨some "3.5", some [⟨schemaArtifactName, "SHA256:" ++ e3b0Lower⟩]⟩

/-- A run whose local schema digest matches the manifest exactly. -/
def c6wEnv : AuditEnv :=
  ⟨.ok c6wManifest, some [], none, fun _ => true, .ok (), none,
   ⟨2025, 1, 1, 0, 0, 0, 0⟩, "2025-01-01T00:00:00", 100⟩

/-- A matching run for the C7 witness: local digest equals the manifest
digest, schema parses, CAP record loads and validates. -/
def c7wEnv : AuditEnv :=
  ⟨.ok ⟨some "3.5", some [⟨schemaArtifactName, "SHA256:" ++ e3b0Lower⟩]⟩,
   some [], none, fun _ => true, .ok (), none,
   ⟨2025, 1, 2, 0, 0, 0, 0⟩, "2025-01-02T00:00:00", 101⟩

/-- A mismatching run for the C7 witness: the manifest expects the digest
of [0] but the local file and the canonical source both hold []. -/
def c7xEnv : AuditEnv :=
  ⟨.ok ⟨some "3.5", some [⟨schemaArtifactName, "SHA256:6e340b9cffb37a989ca544e6bb780a2c78901d3fb33738768511a30617afa01d"⟩]⟩,
   some [], some [], fun _ => true, .ok (), none,
   ⟨2025, 1, 3, 0, 0, 0, 0⟩, "2025-01-03T00:00:00", 102⟩

/-- A run that cannot even load the manifest. -/
def c8Env : AuditEnv :=
  ⟨.missing, none, none, fun _ => false, .missing, none,
   ⟨2025, 2, 3, 4, 5, 6, 7⟩, "2025-02-03T04:05:06", 42⟩

/-- An arbitrary audit record payload for log-file inputs. -/
def dummyRec : AuditRecord := ⟨"rZ", "unknown", "N/A", .missingFileOrKey, "FAIL"⟩

/-- Eleven log files all carrying the same modification time. -/
def tieLogs : List LogFile :=
  [⟨"integrity_a.log", 7, dummyRec⟩, ⟨"integrity_b.log", 7, dummyRec⟩,
   ⟨"integrity_c.log", 7, dummyRec⟩, ⟨"integrity_d.log", 7, dummyRec⟩,
   ⟨"integrity_e.log", 7, dummyRec⟩, ⟨"integrity_f.log", 7, dummyRec⟩,
   ⟨"integrity_g.log", 7, dummyRec⟩, ⟨"integrity_h.log", 7, dummyRec⟩,
   ⟨"integrity_i.log", 7, dummyRec⟩, ⟨"integrity_j.log", 7, dummyRec⟩,
   ⟨"integrity_k.log", 7, dummyRec⟩]

/-- Eleven log files with distinct modification times 0..10. -/
def c9wLogs : List LogFile :=
  [⟨"integrity_00.log", 0, dummyRec⟩, ⟨"integrity_01.log", 1, dummyRec⟩,
   ⟨"integrity_02.log", 2, dummyRec⟩, ⟨"integrity_03.log", 3, dummyRec⟩,
   ⟨"integrity_04.log", 4, dummyRec⟩, ⟨"integrity_05.log", 5, dummyRec⟩,
   ⟨"integrity_06.log", 6, dummyRec⟩, ⟨"integrity_07.log", 7, dummyRec⟩,
   ⟨"integrity_08.log", 8, dummyRec⟩, ⟨"integrity_09.log", 9, dummyRec⟩,
   ⟨"integrity_10.log", 10, dummyRec⟩]

/-- Two run start instants inside the same UTC second, differing only in
microseconds. -/
def c10t1 : UtcTime := ⟨2025, 3, 4, 5, 6, 7, 111111⟩

def c10t2 : UtcTime := ⟨2025, 3, 4, 5, 6, 7, 999999⟩

/-- Two auditor runs started at c10t1 and c10t2. -/
def c10Env1 : AuditEnv :=
  ⟨.missing, none, none, fun _ => false, .missing, none, c10t1, "r1", 50⟩

def c10Env2 : AuditEnv :=
  ⟨.missing, none, none, fun _ => false, .missing, none, c10t2, "r2", 51⟩

/-
Theorems.  Helper lemmas first, then one theorem per claim (with witness
or counterexample theorems where required).
-/

theorem shaStep_length (st : List Nat) (kw : Nat × Nat) (h : st.length = 8) :
    (shaStep st kw).length = 8 := by
  unfold shaStep
  split
  · rfl
  · exact h

theorem foldl_shaStep_length (l : List (Nat × Nat)) (st : List Nat) (h : st.length = 8) :
    (l.foldl shaStep st).length = 8 := by
  induction l generalizing st with
  | nil => simpa using h
  | cons p ps ih => exact ih _ (shaStep_length _ _ h)

theorem compressBlock_length (H ws : List Nat) (h : H.length = 8) :
    (compressBlock H ws).length = 8 := by
  unfold compressBlock
  have h2 := foldl_shaStep_length ((schedule ws).zip shaK) H h
  simp [h, h2]

theorem foldl_compress_length (p : List Nat) (idxs : List Nat) (H : List Nat)
    (h : H.length = 8) :
    (idxs.foldl (fun acc i => compressBlock acc (blockWords p i)) H).length = 8 := by
  induction idxs generalizing H with
  | nil => simpa using h
  | cons i is ih => exact ih _ (compressBlock_length _ _ h)

theorem sha256Words_length (m : List Nat) : (sha256Words m).length = 8 := by
  unfold sha256Words
  exact foldl_compress_length _ _ _ rfl

theorem sha256Hex_ne_empty (m : List Nat) : sha256Hex m ≠ "" := by
  unfold sha256Hex
  intro hEq
  have hdata : ((sha256Words m).flatMap
      (fun w => (List.range 8).map (fun i => hexChar ((w >>> (4 * (7 - i))) % 16)))) = [] := by
    have := congrArg String.data hEq
    simpa using this
  obtain ⟨w, ws, hw⟩ : ∃ w ws, sha256Words m = w :: ws := by
    cases hsw : sha256Words m with
    | nil =>
      have := sha256Words_length m
      rw [hsw] at this
      simp at this
    | cons w ws => exact ⟨w, ws, rfl⟩
  rw [hw] at hdata
  simp [List.flatMap] at hdata

theorem hmacSha256Hex_ne_empty (key msg : List Nat) : hmacSha256Hex key msg ≠ "" := by
  unfold hmacSha256Hex
  exact sha256Hex_ne_empty _

/-- Claim C1: for every non-empty secret and every body, verify_signature
accepts exactly the hex HMAC-SHA256 of the body under the secret: it
returns true on that keyed digest, and returns false for any modified
secret or body whose keyed digest differs from the fixed signature (a byte
flip that changed the digest, which is what a flip does short of an
HMAC-SHA256 collision). -/
theorem C1_verify_roundtrip (secret body : List Nat) (hs : secret ≠ []) :
    verify_signature secret body (some (hmacSha256Hex secret body)) = true ∧
    ∀ secret2 body2 : List Nat,
      hmacSha256Hex secret2 body2 ≠ hmacSha256Hex secret body →
      verify_signature secret2 body2 (some (hmacSha256Hex secret body)) = false := by
  constructor
  · unfold verify_signature
    rw [if_neg]
    · simp
    · simp only [Option.getD_some]
      push_neg
      exact ⟨hs, hmacSha256Hex_ne_empty secret body⟩
  · intro s2 b2 hne
    simp [verify_signature, hne]

set_option maxRecDepth 400000 in
/-- Witness for C1 at a concrete secret and body: the keyed digest is
accepted, and flipping a byte of the body ("pay" to "qay") or of the
secret ("k1" to "k2") while keeping the signature fixed is rejected. -/
theorem C1_verify_roundtrip_witness :
    verify_signature (strBytes "k1") (strBytes "pay")
      (some (hmacSha256Hex (strBytes "k1") (strBytes "pay"))) = true ∧
    verify_signature (strBytes "k1") (strBytes "qay")
      (some (hmacSha256Hex (strBytes "k1") (strBytes "pay"))) = false ∧
    verify_signature (strBytes "k2") (strBytes "pay")
      (some (hmacSha256Hex (strBytes "k1") (strBytes "pay"))) = false :=
  ⟨(C1_verify_roundtrip (strBytes "k1") (strBytes "pay") (by decide)).1,
   (C1_verify_roundtrip (strBytes "k1") (strBytes "pay") (by decide)).2
     (strBytes "k1") (strBytes "qay") (by decide),
   (C1_verify_roundtrip (strBytes "k1") (strBytes "pay") (by decide)).2
     (strBytes "k2") (strBytes "pay") (by decide)⟩

/-- Claim C2: with an empty configured secret, or with the signature header
absent, verify_signature returns false for every body and signature; hence
with no secret configured every POST /cap request is answered 401 and the
relay is never invoked, whatever the body, headers, parse, schema outcome
or downstream behaviour. -/
theorem C2_fail_closed (secret body : List Nat) (sig : Option String)
    (parsed : Option RawRecord) (schemaError : Option String)
    (bridge : String) (post : PostResult) :
    verify_signature [] body sig = false ∧
    verify_signature secret body none = false ∧
    (receive_cap [] body sig parsed schemaError bridge post).response = .err 401 ∧
    (receive_cap [] body sig parsed schemaError bridge post).relayInvoked = false := by
  have h1 : verify_signature [] body sig = false := by
    simp [verify_signature]
  have h2 : verify_signature secret body none = false := by
    simp [verify_signature]
  refine ⟨h1, h2, ?_, ?_⟩ <;> · unfold receive_cap; rw [if_pos h1]

set_option maxRecDepth 400000 in
/-- Counterexample to claim C3: a correctly signed request whose record has
cap_id present but EMPTY passes the CAPPayload field check, so no 400 is
returned before schema validation: the schema outcome decides the answer
(422 when the schema objects), and when the schema accepts, the relay IS
invoked and the request returns 200. -/
theorem C3_empty_field_counterexample :
    c3Record.cap_id = some (.str "") ∧
    (receive_cap c3Secret c3Body (some (hmacSha256Hex c3Secret c3Body))
      (some c3Record) none "" (.exn "unused")).relayInvoked = true ∧
    receive_cap c3Secret c3Body (some (hmacSha256Hex c3Secret c3Body))
      (some c3Record) (some "schema violation") "" (.exn "unused") = ⟨.err 422, false⟩ := by
  refine ⟨rfl, ?_, ?_⟩ <;> decide

/-- Claim C3 (amended): for every correctly signed request whose parsed
record is missing one of the required scalar fields, receive_cap answers
400 whatever the schema outcome would have been (schema validation is
never reached) and the relay dispatcher is never invoked.  A scalar field
that is present but empty, however, passes the CAPPayload field check and
proceeds to schema validation (see C3_empty_field_counterexample). -/
theorem C3_missing_field_malformed (secret body : List Nat) (sig : Option String)
    (data : RawRecord) (schemaError : Option String) (bridge : String) (post : PostResult)
    (hv : verify_signature secret body sig = true)
    (hmiss : data.cap_id = none ∨ data.timestamp = none ∨ data.domain = none ∨
             data.context_mode = none ∨ data.advisor_of_record = none) :
    receive_cap secret body sig (some data) schemaError bridge post = ⟨.err 400, false⟩ := by
  have hcap : capPayloadOk data = false := by
    unfold capPayloadOk
    rcases hmiss with h | h | h | h | h <;> simp [h, isStrField]
  simp [receive_cap, hv, hcap]

set_option maxRecDepth 400000 in
/-- Witness for C3 (amended): a correctly signed request whose body has no
cap_id member is answered 400 with the relay never invoked, even though
the schema validator would have reported a violation. -/
theorem C3_missing_field_malformed_witness :
    receive_cap c3Secret c3wBody (some (hmacSha256Hex c3Secret c3wBody))
      (some c3wRecord) (some "missing cap_id") "https://bridge.example" (.exn "e") =
      ⟨.err 400, false⟩ :=
  C3_missing_field_malformed _ _ _ _ _ _ _ (by decide) (Or.inl rfl)

/-- Claim C4: for every signed request whose record passes the field check
and the schema, receive_cap returns the 200 "validated" response with the
relay outcome embedded, for every downstream behaviour — a failed or error
relay outcome (including a transport exception) never fails the request. -/
theorem C4_relay_outcome_informational (secret body : List Nat) (sig : Option String)
    (data : RawRecord) (bridge : String) (post : PostResult)
    (hv : verify_signature secret body sig = true)
    (hcap : capPayloadOk data = true) :
    receive_cap secret body sig (some data) none bridge post =
      ⟨.ok (relay_cap_payload bridge post), true⟩ := by
  simp [receive_cap, hv, hcap]

set_option maxRecDepth 400000 in
/-- Witness for C4: a signed, valid record whose relay raises a transport
exception still gets a 200 response, with the error outcome embedded. -/
theorem C4_relay_outcome_informational_witness :
    receive_cap c3Secret c4Body (some (hmacSha256Hex c3Secret c4Body))
      (some c4Record) none "https://bridge.example" (.exn "connection refused") =
      ⟨.ok (.error "connection refused"), true⟩ :=
  (C4_relay_outcome_informational c3Secret c4Body _ c4Record "https://bridge.example"
      (.exn "connection refused") (by decide) (by decide)).trans (by decide)

/-- Claim C5 (amended): relay_cap_payload returns exactly one of the four
closed outcomes: no endpoint configured → skipped; HTTP 200 whose body
decodes as JSON → success carrying the decoded body; HTTP 200 whose body
fails JSON decoding → error carrying the decode message (response.json()
raises inside the try block, so this is not a success); any other status →
failed carrying that status and body, with no retry; a transport-level
exception → error carrying the message. -/
theorem C5_relay_classification (bridge : String) (hb : bridge ≠ "") (status : Nat)
    (text b m : String) (post : PostResult) :
    relay_cap_payload "" post = .skipped "BRIDGE_URL not set" ∧
    relay_cap_payload bridge (.resp ⟨200, text, .val b⟩) = .success b ∧
    relay_cap_payload bridge (.resp ⟨200, text, .decodeErr m⟩) = .error m ∧
    (status ≠ 200 → ∀ j : JsonOutcome,
      relay_cap_payload bridge (.resp ⟨status, text, j⟩) = .failed status text) ∧
    relay_cap_payload bridge (.exn m) = .error m := by
  refine ⟨?_, ?_, ?_, ?_, ?_⟩
  · simp [relay_cap_payload]
  · simp [relay_cap_payload, hb]
  · simp [relay_cap_payload, hb]
  · intro hst j
    simp [relay_cap_payload, hb, hst]
  · simp [relay_cap_payload, hb]

/-- Witness for C5 (amended): the four classifications at concrete inputs. -/
theorem C5_relay_classification_witness :
    relay_cap_payload "" (.exn "x") = .skipped "BRIDGE_URL not set" ∧
    relay_cap_payload "https://bridge.example" (.resp ⟨200, "t", .val "b"⟩) = .success "b" ∧
    relay_cap_payload "https://bridge.example"
      (.resp ⟨500, "Internal Server Error", .decodeErr "m"⟩) = .failed 500 "Internal Server Error" ∧
    relay_cap_payload "https://bridge.example" (.exn "Connection refused") = .error "Connection refused" :=
  ⟨(C5_relay_classification "https://bridge.example" (by decide) 500 "t" "b" "m" (.exn "x")).1,
   (C5_relay_classification "https://bridge.example" (by decide) 500 "t" "b" "m" (.exn "x")).2.1,
   (C5_relay_classification "https://bridge.example" (by decide) 500 "Internal Server Error" "b" "m"
      (.exn "x")).2.2.2.1 (by decide) (.decodeErr "m"),
   (C5_relay_classification "https://bridge.example" (by decide) 500 "t" "b" "Connection refused"
      (.exn "x")).2.2.2.2⟩

/-- Counterexample to claim C5 as stated: a downstream HTTP 200 whose body
is not JSON ("OK") yields the error outcome — not a success carrying the
downstream body — because response.json() raises inside the try block. -/
theorem C5_http200_nonjson_counterexample :
    relay_cap_payload "https://bridge.example"
      (.resp ⟨200, "OK", .decodeErr "Expecting value: line 1 column 1 (char 0)"⟩) =
      .error "Expecting value: line 1 column 1 (char 0)" ∧
    isSuccess (relay_cap_payload "https://bridge.example"
      (.resp ⟨200, "OK", .decodeErr "Expecting value: line 1 column 1 (char 0)"⟩)) = false := by
  decide

theorem runTail_components (env : AuditEnv) (m : Manifest) (lh : String) (fc : Nat)
    (c : List Nat) :
    (runTail env m lh fc c).manifestVar = some m ∧
    (runTail env m lh fc c).localHash = some lh ∧
    (runTail env m lh fc c).fetchCount = fc ∧
    (runTail env m lh fc c).schemaFile = some c := by
  unfold runTail
  split
  · exact ⟨rfl, rfl, rfl, rfl⟩
  · split
    · exact ⟨rfl, rfl, rfl, rfl⟩
    · exact ⟨rfl, rfl, rfl, rfl⟩
    · split <;> exact ⟨rfl, rfl, rfl, rfl⟩

theorem runTail_pass (env : AuditEnv) (m : Manifest) (lh : String) (fc : Nat) (c : List Nat)
    (h1 : env.jsonOk c = true) (h2 : env.capLoad = .ok ()) (h3 : env.capError = none) :
    runTail env m lh fc c = ⟨some m, some lh, fc, some c, .pass⟩ := by
  simp [runTail, h1, h2, h3]

theorem runTry_fetchCount_le (env : AuditEnv) : (runTry env).fetchCount ≤ 1 := by
  have hT : ∀ (m : Manifest) (lh : String) (fc : Nat) (c : List Nat), fc ≤ 1 →
      (runTail env m lh fc c).fetchCount ≤ 1 := by
    intro m lh fc c h
    rw [(runTail_components env m lh fc c).2.2.1]
    exact h
  unfold runTry
  repeat' split
  all_goals first
    | exact Nat.zero_le 1
    | exact Nat.le_refl 1
    | exact hT _ _ _ _ (by decide)

/-- Claim C6 (amended): the line-69 comparison of the locally computed
digest with the manifest's expected digest is an exact, case-sensitive
string comparison of the hex parts: no fetch happens exactly when the two
hex strings are equal, so a manifest digest differing from the (lowercase)
local digest only in hex letter case is treated as a mismatch and does
trigger a repair fetch (see C6_case_insensitive_counterexample). -/
theorem C6_exact_compare (env : AuditEnv) (m : Manifest) (mods : List ModEntry)
    (entry : ModEntry) (canon : String) (b : List Nat)
    (h1 : env.manifestLoad = .ok m) (h2 : m.modules = some mods)
    (h3 : findModule mods = some entry) (h4 : hexPart entry.sha256 = some canon)
    (h5 : env.schemaBytes = some b) :
    ((runTry env).fetchCount = 0 ↔ sha256Hex b = canon) := by
  simp only [runTry, h1, h2, h3, h4, h5]
  by_cases h : sha256Hex b = canon
  · rw [if_pos h, (runTail_components env m (sha256Hex b) 0 b).2.2.1]
    simp [h]
  · rw [if_neg h]
    cases hf : env.fetched with
    | none => simp [h]
    | some c =>
      by_cases h2 : sha256Hex c = canon
      · simp [h2, h, (runTail_components env m canon 1 c).2.2.1]
      · simp [h2, h]

/-- Witness for C6 (amended): with the manifest digest written in the same
lowercase hex as the local digest, no fetch occurs. -/
theorem C6_exact_compare_witness : (runTry c6wEnv).fetchCount = 0 :=
  (C6_exact_compare c6wEnv c6wManifest [⟨schemaArtifactName, "SHA256:" ++ e3b0Lower⟩]
    ⟨schemaArtifactName, "SHA256:" ++ e3b0Lower⟩ e3b0Lower [] rfl rfl (by decide)
    (by decide) rfl).mpr (by decide)

/-- Counterexample to claim C6: a manifest digest that differs from the
local digest only in hex letter case (uppercase vs lowercase) is NOT
treated as a match: the run takes the mismatch branch and performs a
repair fetch, and since the fetched content hashes to the same lowercase
digest, the run fails — the comparison is case-sensitive. -/
theorem C6_case_insensitive_counterexample :
    lowerHex (sha256Hex []) = lowerHex e3b0Upper ∧
    sha256Hex [] ≠ e3b0Upper ∧
    (runTry c6Env).fetchCount = 1 ∧
    statusOf (runTry c6Env) = "FAIL" := by
  decide

/-- Claim C7: every run attempts the canonical fetch at most once; a run
whose local digest matches the manifest performs no fetch and (schema
parsing, CAP load and validation succeeding) ends with status PASS,
leaving the schema file unchanged so an immediately repeated run behaves
identically (PASS, zero fetches); a run whose local digest mismatches
performs exactly one fetch, and if the re-computed digest still
mismatches, the run fails with the still-mismatch verdict without a
second fetch. -/
theorem C7_fetch_at_most_once (env : AuditEnv) :
    (runTry env).fetchCount ≤ 1 ∧
    (∀ (m : Manifest) (mods : List ModEntry) (entry : ModEntry) (canon : String) (b : List Nat),
      env.manifestLoad = .ok m → m.modules = some mods → findModule mods = some entry →
      hexPart entry.sha256 = some canon → env.schemaBytes = some b → sha256Hex b = canon →
      env.jsonOk b = true → env.capLoad = .ok () → env.capError = none →
      (runTry env).fetchCount = 0 ∧ statusOf (runTry env) = "PASS" ∧
      (runTry env).schemaFile = env.schemaBytes ∧
      runTry { env with schemaBytes := (runTry env).schemaFile } = runTry env) ∧
    (∀ (m : Manifest) (mods : List ModEntry) (entry : ModEntry) (canon : String) (b c : List Nat),
      env.manifestLoad = .ok m → m.modules = some mods → findModule mods = some entry →
      hexPart entry.sha256 = some canon → env.schemaBytes = some b → sha256Hex b ≠ canon →
      env.fetched = some c → sha256Hex c ≠ canon →
      (runTry env).fetchCount = 1 ∧
      (runTry env).verdict = .unhandled "Post-fetch hash still mismatch." ∧
      statusOf (runTry env) = "FAIL") := by
  refine ⟨runTry_fetchCount_le env, ?_, ?_⟩
  · intro m mods entry canon b h1 h2 h3 h4 h5 h6 h7 h8 h9
    have hrun : runTry env = ⟨some m, some (sha256Hex b), 0, some b, .pass⟩ := by
      simp only [runTry, h1, h2, h3, h4, h5]
      rw [if_pos h6]
      exact runTail_pass env m _ 0 b h7 h8 h9
    have hsf : (runTry env).schemaFile = env.schemaBytes := by rw [hrun, h5]
    refine ⟨by rw [hrun], by simp [hrun, statusOf], hsf, ?_⟩
    rw [hsf]
  · intro m mods entry canon b c h1 h2 h3 h4 h5 h6 h7 h8
    have hrun : runTry env =
        ⟨some m, some (sha256Hex c), 1, some c, .unhandled "Post-fetch hash still mismatch."⟩ := by
      simp only [runTry, h1, h2, h3, h4, h5]
      rw [if_neg h6]
      simp only [h7]
      rw [if_neg h8]
    exact ⟨by rw [hrun], by rw [hrun], by simp [hrun, statusOf]⟩

/-- Witness for C7: a matching run performs zero fetches and passes; a run
whose manifest expects the digest of [0] over a local and canonical
content of [] performs exactly one fetch and fails. -/
theorem C7_fetch_at_most_once_witness :
    ((runTry c7wEnv).fetchCount = 0 ∧ statusOf (runTry c7wEnv) = "PASS") ∧
    ((runTry c7xEnv).fetchCount = 1 ∧ statusOf (runTry c7xEnv) = "FAIL") :=
  ⟨⟨((C7_fetch_at_most_once c7wEnv).2.1
      ⟨some "3.5", some [⟨schemaArtifactName, "SHA256:" ++ e3b0Lower⟩]⟩
      [⟨schemaArtifactName, "SHA256:" ++ e3b0Lower⟩]
      ⟨schemaArtifactName, "SHA256:" ++ e3b0Lower⟩
      e3b0Lower [] rfl rfl (by decide) (by decide) rfl (by decide) rfl rfl rfl).1,
    ((C7_fetch_at_most_once c7wEnv).2.1
      ⟨some "3.5", some [⟨schemaArtifactName, "SHA256:" ++ e3b0Lower⟩]⟩
      [⟨schemaArtifactName, "SHA256:" ++ e3b0Lower⟩]
      ⟨schemaArtifactName, "SHA256:" ++ e3b0Lower⟩
      e3b0Lower [] rfl rfl (by decide) (by decide) rfl (by decide) rfl rfl rfl).2.1⟩,
   ⟨((C7_fetch_at_most_once c7xEnv).2.2
      ⟨some "3.5", some [⟨schemaArtifactName, "SHA256:6e340b9cffb37a989ca544e6bb780a2c78901d3fb33738768511a30617afa01d"⟩]⟩
      [⟨schemaArtifactName, "SHA256:6e340b9cffb37a989ca544e6bb780a2c78901d3fb33738768511a30617afa01d"⟩]
      ⟨schemaArtifactName, "SHA256:6e340b9cffb37a989ca544e6bb780a2c78901d3fb33738768511a30617afa01d"⟩
      "6e340b9cffb37a989ca544e6bb780a2c78901d3fb33738768511a30617afa01d" [] []
      rfl rfl (by decide) (by decide) rfl (by decide) rfl (by decide)).1,
    ((C7_fetch_at_most_once c7xEnv).2.2
      ⟨some "3.5", some [⟨schemaArtifactName, "SHA256:6e340b9cffb37a989ca544e6bb780a2c78901d3fb33738768511a30617afa01d"⟩]⟩
      [⟨schemaArtifactName, "SHA256:6e340b9cffb37a989ca544e6bb780a2c78901d3fb33738768511a30617afa01d"⟩]
      ⟨schemaArtifactName, "SHA256:6e340b9cffb37a989ca544e6bb780a2c78901d3fb33738768511a30617afa01d"⟩
      "6e340b9cffb37a989ca544e6bb780a2c78901d3fb33738768511a30617afa01d" [] []
      rfl rfl (by decide) (by decide) rfl (by decide) rfl (by decide)).2.2⟩⟩

theorem filter_neq_then_eq (p : String) (logs : List LogFile) :
    (logs.filter (fun g => g.path != p)).filter (fun g => g.path == p) = [] := by
  induction logs with
  | nil => rfl
  | cons a l ih =>
    rw [List.filter_cons]
    by_cases h : a.path = p
    · simp [h, ih]
    · simp [h, ih]

theorem writeLog_filter_self (logs : List LogFile) (f : LogFile) :
    (writeLog logs f).filter (fun g => g.path == f.path) = [f] := by
  unfold writeLog
  rw [List.filter_append, filter_neq_then_eq]
  simp

/-- Claim C8: every run, on every exit path, produces exactly one audit
record at its log path (the pre-prune archive holds exactly one file at
that path), then prunes retention; the record's status is always PASS or
FAIL and the process exits 0 exactly when it is PASS; a run that never
assigned the `manifest` local reports manifest_version "unknown" and
schema_hash "N/A", a run that never assigned `local_hash` reports
schema_hash "N/A", and a run that did compute a hash reports that hash. -/
theorem C8_audit_record_always (env : AuditEnv) (prev : List LogFile) :
    ((writeLog prev (logFileOf env)).filter
        (fun g => g.path == (logFileOf env).path)).length = 1 ∧
    finalLogsOf env prev = prune_logs (writeLog prev (logFileOf env)) ∧
    (exitZero env = true ↔ (auditRecordOf env).status = "PASS") ∧
    ((auditRecordOf env).status = "PASS" ∨ (auditRecordOf env).status = "FAIL") ∧
    ((env.manifestLoad = .missing ∨ (∃ s, env.manifestLoad = .notJson s)) →
      (auditRecordOf env).manifest_version = "unknown" ∧
      (auditRecordOf env).schema_hash = "N/A") ∧
    ((runTry env).localHash = none → (auditRecordOf env).schema_hash = "N/A") ∧
    (∀ lh, (runTry env).localHash = some lh → (auditRecordOf env).schema_hash = lh) := by
  refine ⟨?_, rfl, ?_, ?_, ?_, ?_, ?_⟩
  · rw [writeLog_filter_self]
    rfl
  · simp [exitZero]
  · have hst : (auditRecordOf env).status = statusOf (runTry env) := rfl
    rw [hst]
    unfold statusOf
    split
    · exact Or.inl rfl
    · exact Or.inr rfl
  · rintro (h | ⟨s, h⟩) <;> simp [auditRecordOf, mkRecord, runTry, h]
  · intro h
    simp [auditRecordOf, mkRecord, h]
  · intro lh h
    simp [auditRecordOf, mkRecord, h]

/-- Witness for C8: a run that cannot load the manifest still produces a
record with both sentinels, a FAIL status, a non-zero exit, and exactly one
pre-prune log file at its path. -/
theorem C8_audit_record_always_witness :
    (auditRecordOf c8Env).manifest_version = "unknown" ∧
    (auditRecordOf c8Env).schema_hash = "N/A" ∧
    ((writeLog [] (logFileOf c8Env)).filter
        (fun g => g.path == (logFileOf c8Env).path)).length = 1 :=
  ⟨((C8_audit_record_always c8Env []).2.2.2.2.1 (Or.inl rfl)).1,
   ((C8_audit_record_always c8Env []).2.2.2.2.1 (Or.inl rfl)).2,
   (C8_audit_record_always c8Env []).1⟩

theorem insertDesc_perm (f : LogFile) (l : List LogFile) : (insertDesc f l).Perm (f :: l) := by
  induction l with
  | nil => exact List.Perm.refl _
  | cons g gs ih =>
    unfold insertDesc
    split
    · exact List.Perm.refl _
    · exact (ih.cons g).trans (List.Perm.swap f g gs)

theorem sortByMtimeDesc_perm (l : List LogFile) : (sortByMtimeDesc l).Perm l := by
  induction l with
  | nil => exact List.Perm.refl _
  | cons f fs ih => exact (insertDesc_perm f (sortByMtimeDesc fs)).trans (ih.cons f)

theorem pairwise_insertDesc (f : LogFile) (l : List LogFile)
    (h : l.Pairwise (fun a b => b.mtime ≤ a.mtime)) :
    (insertDesc f l).Pairwise (fun a b => b.mtime ≤ a.mtime) := by
  induction l with
  | nil => simp [insertDesc]
  | cons g gs ih =>
    unfold insertDesc
    split
    · rename_i hgf
      refine List.Pairwise.cons ?_ h
      intro x hx
      rcases List.mem_cons.mp hx with rfl | hx2
      · exact hgf
      · exact le_trans (List.rel_of_pairwise_cons h hx2) hgf
    · rename_i hgf
      have hfg : f.mtime ≤ g.mtime := le_of_lt (lt_of_not_le hgf)
      refine List.Pairwise.cons ?_ (ih (List.Pairwise.of_cons h))
      intro x hx
      rcases List.mem_cons.mp ((insertDesc_perm f gs).mem_iff.mp hx) with rfl | hx3
      · exact hfg
      · exact List.rel_of_pairwise_cons h hx3

theorem pairwise_sortDesc (l : List LogFile) :
    (sortByMtimeDesc l).Pairwise (fun a b => b.mtime ≤ a.mtime) := by
  induction l with
  | nil => simp [sortByMtimeDesc]
  | cons f fs ih => exact pairwise_insertDesc f _ ih

/-- Claim C9 (amended): after any pruning pass at most LOG_RETAIN = 10 log
files remain; the retained and pruned files together are exactly the input
files, and every pruned file's modification time is at most — not strictly
below — that of every retained file (ties are broken by the stable sort
order, see C9_tie_counterexample). -/
theorem C9_retention (logs : List LogFile) :
    (prune_logs logs).length ≤ LOG_RETAIN ∧
    (prune_logs logs ++ prunedLogs logs).Perm logs ∧
    ∀ r ∈ prune_logs logs, ∀ p ∈ prunedLogs logs, p.mtime ≤ r.mtime := by
  refine ⟨?_, ?_, ?_⟩
  · unfold prune_logs
    rw [List.length_take]
    exact min_le_left _ _
  · unfold prune_logs prunedLogs
    rw [List.take_append_drop]
    exact sortByMtimeDesc_perm logs
  · intro r hr p hp
    unfold prune_logs at hr
    unfold prunedLogs at hp
    have hsplit := List.pairwise_append.mp
      (by rw [List.take_append_drop LOG_RETAIN (sortByMtimeDesc logs)]
          exact pairwise_sortDesc logs)
    exact hsplit.2.2 r hr p hp

/-- Witness for C9 (amended): with eleven distinct-mtime files, at most ten
remain and the pruned file (mtime 0) is no newer than a retained one. -/
theorem C9_retention_witness :
    (prune_logs c9wLogs).length ≤ LOG_RETAIN ∧
    (⟨"integrity_00.log", 0, dummyRec⟩ : LogFile).mtime ≤
      (⟨"integrity_10.log", 10, dummyRec⟩ : LogFile).mtime :=
  ⟨(C9_retention c9wLogs).1,
   (C9_retention c9wLogs).2.2 ⟨"integrity_10.log", 10, dummyRec⟩ (by decide)
     ⟨"integrity_00.log", 0, dummyRec⟩ (by decide)⟩

/-- Counterexample to claim C9: with eleven log files sharing one
modification time, one file is pruned whose mtime equals that of every
retained file, so "every pruned file is older (by modification time) than
every retained file" fails; which file goes is decided by the stable sort
order, not by age. -/
theorem C9_tie_counterexample :
    (prune_logs tieLogs).length = 10 ∧
    prunedLogs tieLogs = [⟨"integrity_k.log", 7, dummyRec⟩] ∧
    (⟨"integrity_a.log", 7, dummyRec⟩ : LogFile) ∈ prune_logs tieLogs ∧
    ¬ ((⟨"integrity_k.log", 7, dummyRec⟩ : LogFile).mtime <
       (⟨"integrity_a.log", 7, dummyRec⟩ : LogFile).mtime) := by
  decide

/-- Claim C10: the audit log path is a function of the run's UTC start time
truncated to whole seconds, so two runs starting in the same second target
the same integrity_YYYYmmdd_HHMMSS.log path; the write atomically replaces
that path, so after the second run at most one file with that path is
retained, and any such file carries the second run's record. -/
theorem C10_one_record_per_second (t1 t2 : UtcTime)
    (hy : t1.year = t2.year) (hmo : t1.month = t2.month) (hd : t1.day = t2.day)
    (hh : t1.hour = t2.hour) (hmi : t1.minute = t2.minute) (hs : t1.second = t2.second) :
    logName t1 = logName t2 ∧
    ∀ (env1 env2 : AuditEnv) (prev : List LogFile), env1.start = t1 → env2.start = t2 →
      ((finalLogsOf env2 (finalLogsOf env1 prev)).filter
          (fun g => g.path == logName t2)).length ≤ 1 ∧
      ∀ g ∈ finalLogsOf env2 (finalLogsOf env1 prev),
        g.path = logName t2 → g.record = auditRecordOf env2 := by
  have hname : logName t1 = logName t2 := by
    unfold logName tstampOf
    rw [hy, hmo, hd, hh, hmi, hs]
  refine ⟨hname, ?_⟩
  intro env1 env2 prev h1 h2
  have hf2path : (logFileOf env2).path = logName t2 := by
    simp [logFileOf, h2]
  have hfinal : finalLogsOf env2 (finalLogsOf env1 prev) =
      (sortByMtimeDesc (writeLog (finalLogsOf env1 prev) (logFileOf env2))).take LOG_RETAIN := rfl
  have hfil : (writeLog (finalLogsOf env1 prev) (logFileOf env2)).filter
      (fun g => g.path == logName t2) = [logFileOf env2] := by
    rw [← hf2path]
    exact writeLog_filter_self _ _
  constructor
  · rw [hfinal]
    have hsub := (List.take_sublist LOG_RETAIN
      (sortByMtimeDesc (writeLog (finalLogsOf env1 prev) (logFileOf env2)))).filter
      (fun g => g.path == logName t2)
    have hlen := ((sortByMtimeDesc_perm
      (writeLog (finalLogsOf env1 prev) (logFileOf env2))).filter
      (fun g => g.path == logName t2)).length_eq
    have := hsub.length_le
    rw [hlen, hfil] at this
    exact this
  · intro g hg hgp
    rw [hfinal] at hg
    have hg2 := (List.take_sublist _ _).subset hg
    have hg3 := (sortByMtimeDesc_perm _).mem_iff.mp hg2
    have hg4 : g ∈ (writeLog (finalLogsOf env1 prev) (logFileOf env2)).filter
        (fun g => g.path == logName t2) :=
      List.mem_filter.mpr ⟨hg3, by simp [hgp]⟩
    rw [hfil] at hg4
    have hgf : g = logFileOf env2 := by simpa using hg4
    rw [hgf]
    rfl

/-- Witness for C10: two runs started 111111 and 999999 microseconds into
the same UTC second write the same log path, and after both runs at most
one file with that path remains. -/
theorem C10_one_record_per_second_witness :
    logName c10t1 = logName c10t2 ∧
    ((finalLogsOf c10Env2 (finalLogsOf c10Env1 [])).filter
        (fun g => g.path == logName c10t2)).length ≤ 1 :=
  ⟨(C10_one_record_per_second c10t1 c10t2 rfl rfl rfl rfl rfl rfl).1,
   ((C10_one_record_per_second c10t1 c10t2 rfl rfl rfl rfl rfl rfl).2
      c10Env1 c10Env2 [] rfl rfl).1⟩
